import Mathlib

/-!
Shallow embedding of the Awanbot backend (src/database.py, src/main.py):
a FastAPI service with two resources, feedback and bookings, guarded by a
shared static API key and persisted in a document database.

Modelling conventions:
- A UTC instant (Python aware `datetime`) is a `Nat`, seconds since the
  epoch.  Comparison of aware datetimes in Python compares instants, which
  matches `Nat` order; the `.hour` accessor of a UTC-aware datetime is
  `t / 3600 % 24`.
- A Mongo collection is a `List` of records in insertion order;
  `insert_one` appends, `find_one` with a filter returns the first
  matching record (`List.find?`), which is Mongo natural order here.
- A `Mongo ObjectId` is its 24-hex-character string rendering.  ObjectId
  equality is byte-level, hence case-insensitive on the hex string.
- HTTP outcomes are `Resp α`: either `ok` with the serialized record or
  `err` with a status code and one of the two error body shapes used by
  the service (generic `detail` bodies from `HTTPException`, structured
  `status/reason` bodies from `JSONResponse`), or the framework-level
  422 validation body.
-/

namespace Awanbot

/-- Characters stripped by Python `str.strip()` with no argument
(ASCII whitespace; the further Unicode whitespace characters Python also
strips play no role in any claim). -/
def pyIsSpace (c : Char) : Bool :=
  c = ' ' || c = '\t' || c = '\n' || c = '\r' || c = '\x0b' || c = '\x0c'

/-- Python `s.strip()`: drop leading and trailing whitespace characters. -/
def pyStrip (s : String) : String :=
  ⟨((s.data.dropWhile pyIsSpace).reverse.dropWhile pyIsSpace).reverse⟩

/-- Hour-of-day component of a UTC instant (Python `datetime.hour` on a
UTC-aware datetime). -/
def hourOf (t : Nat) : Nat := t / 3600 % 24

/-- Hex digit test for `ObjectId` validity. -/
def isHexChar (c : Char) : Bool :=
  c.isDigit || ('a' ≤ c && c ≤ 'f') || ('A' ≤ c && c ≤ 'F')

/-- `bson.ObjectId.is_valid` on a string: exactly 24 hexadecimal
characters (src/main.py lines 124 and 176). -/
def isValidObjectId (s : String) : Bool :=
  s.length = 24 && s.data.all isHexChar

/-- Lower-casing of the six hexadecimal letters; other characters are
kept as they are. -/
def lowerHexChar (c : Char) : Char :=
  if c = 'A' then 'a' else if c = 'B' then 'b' else if c = 'C' then 'c'
  else if c = 'D' then 'd' else if c = 'E' then 'e'
  else if c = 'F' then 'f' else c

/-- ObjectId equality on string renderings: `ObjectId` compares its 12
raw bytes, so two hex strings denote the same id when they agree up to
letter case. -/
def oidEq (a b : String) : Bool :=
  a.data.map lowerHexChar == b.data.map lowerHexChar

/-- The two JSON error body shapes of the service, plus the framework
validation body. -/
inductive ErrorBody where
  /-- Generic body from `HTTPException`. -/
  | detail (msg : String)
  /-- Structured body from `JSONResponse`. -/
  | structured (msg : String)
  /-- FastAPI 422 request-validation body (a list of locations and
  messages, not inspected by any claim). -/
  | validation
  deriving Repr, DecidableEq

/-- Outcome of a route handler: a success record or an error response. -/
inductive Resp (α : Type) where
  | err (status : Nat) (body : ErrorBody)
  | ok (record : α)
  deriving Repr, DecidableEq

/-- Status code carried by an error outcome, `none` on success (a
success serializes with HTTP 200 here). -/
def Resp.statusCode {α : Type} : Resp α → Option Nat
  | .err st _ => some st
  | .ok _ => none

/-- Request body of `POST /feedback` (`FeedbackCreate`, src/main.py
lines 69-72): three required text fields, no `time` field. -/
structure FeedbackCreate where
  name : String
  email : String
  feedback : String
  deriving Repr, DecidableEq

/-- Persisted feedback record (`FeedbackInDB`): the create fields plus
the database-assigned id and the server timestamp. -/
structure FeedbackInDB where
  id : String
  name : String
  email : String
  feedback : String
  time : Nat
  deriving Repr, DecidableEq

/-- Request body of `POST /booking` (`BookingCreate` = `BookingBase`,
src/main.py lines 81-90). -/
structure BookingCreate where
  name : String
  email : String
  start_time : Nat
  end_time : Nat
  topic : String
  deriving Repr, DecidableEq

/-- Persisted booking record (`BookingInDB`). -/
structure BookingInDB where
  id : String
  name : String
  email : String
  start_time : Nat
  end_time : Nat
  topic : String
  deriving Repr, DecidableEq

/-- `find_one` by id in the feedback collection. -/
def findFeedback (coll : List FeedbackInDB) (i : String) : Option FeedbackInDB :=
  coll.find? (fun d => oidEq d.id i)

/-- `find_one` by id in the bookings collection. -/
def findBooking (coll : List BookingInDB) (i : String) : Option BookingInDB :=
  coll.find? (fun d => oidEq d.id i)

/-- Handler of `POST /feedback` (src/main.py lines 104-119), after the
API-key dependency has passed.  `now` is `datetime.now(timezone.utc)` at
processing time and `newId` the ObjectId `insert_one` assigns.  Returns
the HTTP outcome together with the feedback collection after the call.
The final `none` branch is unreachable (the record just inserted is
found again); it stands for the framework error raised when a handler
returns `None` against a response model. -/
def create_feedback (fin : FeedbackCreate) (now : Nat) (newId : String)
    (coll : List FeedbackInDB) : Resp FeedbackInDB × List FeedbackInDB :=
  if (pyStrip fin.feedback).length < 10 then
    (.err 400 (.detail "Feedback too short."), coll)
  else
    let rec2 : FeedbackInDB :=
      { id := newId, name := fin.name, email := fin.email
        feedback := fin.feedback, time := now }
    let coll2 := coll ++ [rec2]
    match findFeedback coll2 newId with
    | some d => (.ok d, coll2)
    | none => (.err 500 (.detail "Internal Server Error"), coll2)

/-- Handler of `GET /feedback/id` (src/main.py lines 122-130), after the
API-key dependency has passed. -/
def get_feedback (i : String) (coll : List FeedbackInDB) : Resp FeedbackInDB :=
  if !isValidObjectId i then .err 400 (.detail "Invalid ID format")
  else
    match findFeedback coll i with
    | some d => .ok d
    | none => .err 404 (.detail "Not found")

/-- Overlap filter of the booking creation query (src/main.py lines
150-153): existing `start_time` strictly before the new end AND existing
`end_time` strictly after the new start. -/
def overlapsWith (s e : Nat) (b : BookingInDB) : Bool :=
  b.start_time < e && b.end_time > s

/-- Office-hours rejection condition (src/main.py line 145): start hour
below 9 or end hour above 18.  Only the hour components are inspected. -/
def officeHoursReject (s e : Nat) : Bool :=
  hourOf s < 9 || hourOf e > 18

/-- Handler of `POST /booking` (src/main.py lines 134-171), after the
API-key dependency has passed.  Checks run in source order and
short-circuit; all failures use the structured body.  Returns the HTTP
outcome together with the bookings collection after the call.  As in
`create_feedback`, the final `none` branch is unreachable. -/
def create_booking (b : BookingCreate) (now : Nat) (newId : String)
    (coll : List BookingInDB) : Resp BookingInDB × List BookingInDB :=
  if b.start_time ≥ b.end_time then
    (.err 400 (.structured "Start time must be before end time."), coll)
  else if b.start_time < now then
    (.err 400 (.structured "Cannot create a booking in the past."), coll)
  else if officeHoursReject b.start_time b.end_time then
    (.err 400 (.structured "Cannot create a booking outside office hours."), coll)
  else
    match coll.find? (overlapsWith b.start_time b.end_time) with
    | some ex =>
      (.err 409 (.structured
        ("Time slot unavailable. Overlaps with booking ID: " ++ ex.id)), coll)
    | none =>
      let rec2 : BookingInDB :=
        { id := newId, name := b.name, email := b.email
          start_time := b.start_time, end_time := b.end_time, topic := b.topic }
      let coll2 := coll ++ [rec2]
      match findBooking coll2 newId with
      | some d => (.ok d, coll2)
      | none => (.err 500 (.structured "Internal Server Error"), coll2)

/-- Handler of `GET /booking/id` (src/main.py lines 174-182), after the
API-key dependency has passed.  Unlike the feedback fetch, the invalid
id branch uses the structured body. -/
def get_booking (i : String) (coll : List BookingInDB) : Resp BookingInDB :=
  if !isValidObjectId i then .err 400 (.structured "Invalid ID format")
  else
    match findBooking coll i with
    | some d => .ok d
    | none => .err 404 (.detail "Not found")

/-- API-key dependency body (`verify_api_key`, src/main.py lines 36-41)
on a header value that is present.  `apiKey` is `os.getenv` of the key,
`none` when the variable is unset (a string never equals Python `None`,
so every request is then rejected). -/
def verify_api_key (apiKey : Option String) (x_api_key : String) :
    Option (Nat × ErrorBody) :=
  if some x_api_key ≠ apiKey then
    some (401, .detail "Invalid or missing API Key")
  else none

/-- Dispatch of a request to a protected route.  The missing-header
branch is modelled from the FastAPI contract for the declaration
`x_api_key: str = Header(...)` in src/main.py line 36: a required
header parameter that is absent fails request validation, so the
framework answers 422 with a validation body and neither the dependency
body nor the handler ever runs. -/
def dispatchProtected {α : Type} (apiKey : Option String)
    (hdr : Option String) (handler : Unit → Resp α) : Resp α :=
  match hdr with
  | none => .err 422 .validation
  | some v =>
    match verify_api_key apiKey v with
    | some (st, b) => .err st b
    | none => handler ()

/-- Pydantic parsing of the `POST /feedback` request body, modelled from
the pydantic `BaseModel` contract used by `FeedbackCreate` (src/main.py
lines 69-72): the body is a JSON object, the three declared required
fields are read, and any unknown key, in particular a client-supplied
`time`, is ignored (pydantic default extra-ignore behaviour; no `time`
field is declared on `FeedbackCreate`). -/
def parseFeedbackCreate (body : List (String × String)) : Option FeedbackCreate :=
  match body.lookup "name", body.lookup "email", body.lookup "feedback" with
  | some n, some e, some f => some { name := n, email := e, feedback := f }
  | _, _, _ => none

/-- Refinement predicate taken from the words of the spec sentence on
feedback length: the number of non-whitespace characters of the feedback
text after trimming.  Written from the spec, to be compared with the
source check `len(feedback.strip()) < 10` above. -/
def specNonWhitespaceCount (s : String) : Nat :=
  ((pyStrip s).data.filter (fun c => !pyIsSpace c)).length

/-! Helper lemmas shared by the claim theorems. -/

theorem oidEq_refl (s : String) : oidEq s s = true := by
  simp [oidEq]

theorem find?_append_singleton {α : Type} (p : α → Bool) (l : List α) (x : α)
    (h : p x = true) : ∃ y, (l ++ [x]).find? p = some y := by
  rw [List.find?_append]
  cases hf : l.find? p with
  | some y => exact ⟨y, rfl⟩
  | none => exact ⟨x, by simp [List.find?_cons, h]⟩

theorem find?_append_singleton_eq {α : Type} (p : α → Bool) (l : List α) (x : α)
    (hl : ∀ y ∈ l, p y = false) (h : p x = true) : (l ++ [x]).find? p = some x := by
  rw [List.find?_append, List.find?_eq_none.mpr fun y hy => by simp [hl y hy]]
  simp [List.find?_cons, h]

theorem create_feedback_valid (fin : FeedbackCreate) (now : Nat) (newId : String)
    (coll : List FeedbackInDB) (hlen : ¬ (pyStrip fin.feedback).length < 10) :
    ∃ r, create_feedback fin now newId coll =
      (.ok r, coll ++ [⟨newId, fin.name, fin.email, fin.feedback, now⟩]) := by
  obtain ⟨y, hy⟩ := find?_append_singleton (fun d : FeedbackInDB => oidEq d.id newId)
    coll ⟨newId, fin.name, fin.email, fin.feedback, now⟩ (oidEq_refl newId)
  exact ⟨y, by simp [create_feedback, hlen, findFeedback, hy]⟩

theorem create_booking_no_overlap (b : BookingCreate) (now : Nat) (newId : String)
    (coll : List BookingInDB)
    (e1 : ¬ b.start_time ≥ b.end_time) (h2 : ¬ b.start_time < now)
    (h3 : officeHoursReject b.start_time b.end_time = false)
    (hf : coll.find? (overlapsWith b.start_time b.end_time) = none) :
    ∃ r, create_booking b now newId coll =
      (.ok r, coll ++ [⟨newId, b.name, b.email, b.start_time, b.end_time, b.topic⟩]) := by
  obtain ⟨y, hy⟩ := find?_append_singleton (fun d : BookingInDB => oidEq d.id newId)
    coll ⟨newId, b.name, b.email, b.start_time, b.end_time, b.topic⟩ (oidEq_refl newId)
  exact ⟨y, by simp [create_booking, e1, h2, h3, hf, findBooking, hy]⟩

/-! Claim theorems. -/

/-- Claim C1, counterexample: the feedback text `"a a a a a a"` has only 6
non-whitespace characters after trimming, so the claim demands a 400
`"Feedback too short."` with no insertion; the code measures the trimmed
length including interior whitespace (11 here), accepts the text, and
inserts a record. -/
theorem C1_counterexample :
    specNonWhitespaceCount "a a a a a a" < 10 ∧
    (create_feedback ⟨"Alice", "a@x.com", "a a a a a a"⟩ 0
      "0123456789abcdef01234567" []).1 ≠ .err 400 (.detail "Feedback too short.") ∧
    (create_feedback ⟨"Alice", "a@x.com", "a a a a a a"⟩ 0
      "0123456789abcdef01234567" []).2 ≠ [] := by
  refine ⟨by decide, by decide, by decide⟩

/-- Claim C1, amended: `POST /feedback` rejects with 400
`"Feedback too short."` and inserts nothing exactly when the feedback
text, after trimming leading and trailing whitespace, is shorter than 10
characters, interior whitespace counting towards the length; any text of
trimmed length at least 10 passes the validation and is inserted. -/
theorem C1_feedback_trimmed_length (fin : FeedbackCreate) (now : Nat)
    (newId : String) (coll : List FeedbackInDB) :
    ((pyStrip fin.feedback).length < 10 →
      create_feedback fin now newId coll =
        (.err 400 (.detail "Feedback too short."), coll)) ∧
    (10 ≤ (pyStrip fin.feedback).length →
      (∃ r, (create_feedback fin now newId coll).1 = .ok r) ∧
      (create_feedback fin now newId coll).2 =
        coll ++ [⟨newId, fin.name, fin.email, fin.feedback, now⟩]) := by
  constructor
  · intro h
    simp [create_feedback, h]
  · intro h
    have hne : ¬ (pyStrip fin.feedback).length < 10 := by omega
    obtain ⟨y, hy⟩ := find?_append_singleton
      (fun d : FeedbackInDB => oidEq d.id newId) coll
      ⟨newId, fin.name, fin.email, fin.feedback, now⟩ (oidEq_refl newId)
    refine ⟨⟨y, ?_⟩, ?_⟩ <;>
      simp [create_feedback, hne, findFeedback, hy]

/-- Claim C1, witness for the amended theorem: a concrete short text is
rejected without insertion, and a concrete long one is accepted and
appended. -/
theorem C1_witness :
    (create_feedback ⟨"Alice", "a@x.com", "  short  "⟩ 0
      "0123456789abcdef01234567" [] =
      (.err 400 (.detail "Feedback too short."), [])) ∧
    ((∃ r, (create_feedback ⟨"Alice", "a@x.com", "long enough feedback"⟩ 0
        "0123456789abcdef01234567" []).1 = .ok r) ∧
      (create_feedback ⟨"Alice", "a@x.com", "long enough feedback"⟩ 0
        "0123456789abcdef01234567" []).2 =
        [] ++ [⟨"0123456789abcdef01234567", "Alice", "a@x.com",
          "long enough feedback", 0⟩]) :=
  ⟨(C1_feedback_trimmed_length ⟨"Alice", "a@x.com", "  short  "⟩ 0
      "0123456789abcdef01234567" []).1 (by decide),
   (C1_feedback_trimmed_length ⟨"Alice", "a@x.com", "long enough feedback"⟩ 0
      "0123456789abcdef01234567" []).2 (by decide)⟩

/-- Claim C2, code behaviour at the failing input: on a protected route,
a request with no `x-api-key` header is answered 422 with the framework
validation body, not 401 with detail `"Invalid or missing API Key"`; a
present but wrong key is answered 401 with that detail, and the correct
key lets the handler run. -/
theorem C2_api_key_behaviour :
    @dispatchProtected Nat (some "secret") none (fun _ => .ok 7) =
      .err 422 .validation ∧
    @dispatchProtected Nat (some "secret") none (fun _ => .ok 7) ≠
      .err 401 (.detail "Invalid or missing API Key") ∧
    @dispatchProtected Nat (some "secret") (some "wrong") (fun _ => .ok 7) =
      .err 401 (.detail "Invalid or missing API Key") ∧
    @dispatchProtected Nat (some "secret") (some "secret") (fun _ => .ok 7) =
      .ok 7 := by
  refine ⟨rfl, by decide, by decide, by decide⟩

/-- Claim C7: on both fetch routes an identifier that is not 24 hex
characters is rejected with 400 before any lookup (the result does not
depend on the collection), the feedback route with the generic detail
body and the booking route with the structured body; a well-formed
identifier matching no record yields 404 with generic detail
`"Not found"` on both routes. -/
theorem C7_id_validation (i : String) (collF : List FeedbackInDB)
    (collB : List BookingInDB) :
    (isValidObjectId i = false →
      get_feedback i collF = .err 400 (.detail "Invalid ID format") ∧
      get_booking i collB = .err 400 (.structured "Invalid ID format")) ∧
    (isValidObjectId i = true →
      (findFeedback collF i = none →
        get_feedback i collF = .err 404 (.detail "Not found")) ∧
      (findBooking collB i = none →
        get_booking i collB = .err 404 (.detail "Not found"))) := by
  constructor
  · intro h
    exact ⟨by simp [get_feedback, h], by simp [get_booking, h]⟩
  · intro h
    exact ⟨fun hf => by simp [get_feedback, h, hf],
           fun hf => by simp [get_booking, h, hf]⟩

/-- Claim C7, witness: the malformed identifier `"not-an-id"` is
rejected on both routes with the two body shapes. -/
theorem C7_witness :
    get_feedback "not-an-id" [] = .err 400 (.detail "Invalid ID format") ∧
    get_booking "not-an-id" [] = .err 400 (.structured "Invalid ID format") :=
  (C7_id_validation "not-an-id" [] []).1 (by decide)

/-- Claim C10: the office-hours check reads only the hour-of-day
components, never the dates, so every booking with start hour at least 9
and end hour at most 18 passes it, even across whole days; concretely, a
booking from 09:00 on day 0 to 17:00 on day 3 (spanning three nights) is
accepted and inserted. -/
theorem C10_hours_only (s e : Nat) (hs : 9 ≤ hourOf s) (he : hourOf e ≤ 18) :
    officeHoursReject s e = false ∧
    (∃ r, (create_booking ⟨"Alice", "a@x.com", 9 * 3600, 3 * 86400 + 17 * 3600, "offsite"⟩
      0 "cccccccccccccccccccccccc" []).1 = .ok r) := by
  constructor
  · simp [officeHoursReject]
    omega
  · exact ⟨⟨"cccccccccccccccccccccccc", "Alice", "a@x.com",
      9 * 3600, 3 * 86400 + 17 * 3600, "offsite"⟩, by decide⟩

/-- Claim C10, witness: the three-day interval of the example has start
hour 9 and end hour 17, and the check passes on it. -/
theorem C10_witness :
    officeHoursReject (9 * 3600) (3 * 86400 + 17 * 3600) = false :=
  (C10_hours_only (9 * 3600) (3 * 86400 + 17 * 3600)
    (by decide) (by decide)).1

/-- Claim C3: once the three preceding checks pass, `POST /booking`
answers 409 exactly when some existing booking has start before the new
end and end after the new start; the reason names the first matching
booking, and an exactly adjacent booking never counts as overlapping, so
a request adjacent to every existing booking is accepted. -/
theorem C3_overlap_409 (b : BookingCreate) (now : Nat) (newId : String)
    (coll : List BookingInDB)
    (h1 : b.start_time < b.end_time)
    (h2 : ¬ b.start_time < now)
    (h3 : officeHoursReject b.start_time b.end_time = false) :
    ((create_booking b now newId coll).1.statusCode = some 409 ↔
      ∃ ex ∈ coll, overlapsWith b.start_time b.end_time ex = true) ∧
    (∀ ex, coll.find? (overlapsWith b.start_time b.end_time) = some ex →
      (create_booking b now newId coll).1 =
        .err 409 (.structured
          ("Time slot unavailable. Overlaps with booking ID: " ++ ex.id))) ∧
    (∀ ex : BookingInDB,
      b.start_time = ex.end_time ∨ b.end_time = ex.start_time →
      overlapsWith b.start_time b.end_time ex = false) ∧
    ((∀ ex ∈ coll, overlapsWith b.start_time b.end_time ex = false) →
      ∃ r, (create_booking b now newId coll).1 = .ok r) := by
  have e1 : ¬ b.start_time ≥ b.end_time := by omega
  refine ⟨?_, ?_, ?_, ?_⟩
  · cases hf : coll.find? (overlapsWith b.start_time b.end_time) with
    | some ex =>
      refine ⟨fun _ => ⟨ex, List.mem_of_find?_eq_some hf, List.find?_some hf⟩, fun _ => ?_⟩
      simp [create_booking, e1, h2, h3, hf, Resp.statusCode]
    | none =>
      constructor
      · intro hst
        obtain ⟨r, hr⟩ := create_booking_no_overlap b now newId coll e1 h2 h3 hf
        rw [hr] at hst
        simp [Resp.statusCode] at hst
      · rintro ⟨ex, hmem, hov⟩
        exact absurd (List.find?_eq_none.mp hf ex hmem) (by simp [hov])
  · intro ex hf
    simp [create_booking, e1, h2, h3, hf]
  · intro ex hx
    simp only [overlapsWith, Bool.and_eq_false_iff]
    rcases hx with h | h
    · right
      simp only [decide_eq_false_iff_not]
      omega
    · left
      simp only [decide_eq_false_iff_not]
      omega
  · intro hall
    have hf : coll.find? (overlapsWith b.start_time b.end_time) = none :=
      List.find?_eq_none.mpr fun x hx => by simp [hall x hx]
    obtain ⟨r, hr⟩ := create_booking_no_overlap b now newId coll e1 h2 h3 hf
    exact ⟨r, by rw [hr]⟩

/-- Claim C3, witness: with an existing 10:00 to 11:00 booking, a
request for 10:30 to 11:30 the same day is answered 409 with a reason
carrying the identifier of that booking, while the exactly adjacent
request for 11:00 to 12:00 is accepted. -/
theorem C3_witness :
    ((create_booking ⟨"Alice", "a@x.com", 37800, 41400, "sync"⟩ 0
      "bbbbbbbbbbbbbbbbbbbbbbbb"
      [⟨"aaaaaaaaaaaaaaaaaaaaaaaa", "Bob", "b@x.com", 36000, 39600, "standup"⟩]).1 =
      .err 409 (.structured
        ("Time slot unavailable. Overlaps with booking ID: " ++
          "aaaaaaaaaaaaaaaaaaaaaaaa"))) ∧
    (∃ r, (create_booking ⟨"Alice", "a@x.com", 39600, 43200, "sync"⟩ 0
      "bbbbbbbbbbbbbbbbbbbbbbbb"
      [⟨"aaaaaaaaaaaaaaaaaaaaaaaa", "Bob", "b@x.com", 36000, 39600, "standup"⟩]).1 =
      .ok r) :=
  ⟨(C3_overlap_409 ⟨"Alice", "a@x.com", 37800, 41400, "sync"⟩ 0
      "bbbbbbbbbbbbbbbbbbbbbbbb"
      [⟨"aaaaaaaaaaaaaaaaaaaaaaaa", "Bob", "b@x.com", 36000, 39600, "standup"⟩]
      (by decide) (by decide) (by decide)).2.1
      ⟨"aaaaaaaaaaaaaaaaaaaaaaaa", "Bob", "b@x.com", 36000, 39600, "standup"⟩
      (by decide),
   (C3_overlap_409 ⟨"Alice", "a@x.com", 39600, 43200, "sync"⟩ 0
      "bbbbbbbbbbbbbbbbbbbbbbbb"
      [⟨"aaaaaaaaaaaaaaaaaaaaaaaa", "Bob", "b@x.com", 36000, 39600, "standup"⟩]
      (by decide) (by decide) (by decide)).2.2.2 (by decide)⟩

/-- Claim C4: when the time-order and not-in-the-past checks pass, the
office-hours rejection with reason
`"Cannot create a booking outside office hours."` happens exactly when
the start hour is below 9 or the end hour is above 18; the check depends
on nothing but the two hour components, and an end time of 18:45 passes
it because minutes are never inspected. -/
theorem C4_office_hours (b : BookingCreate) (now : Nat) (newId : String)
    (coll : List BookingInDB)
    (h1 : b.start_time < b.end_time)
    (h2 : ¬ b.start_time < now) :
    ((create_booking b now newId coll).1 =
        .err 400 (.structured "Cannot create a booking outside office hours.") ↔
      (hourOf b.start_time < 9 ∨ 18 < hourOf b.end_time)) ∧
    (∀ s e s2 e2 : Nat, hourOf s2 = hourOf s → hourOf e2 = hourOf e →
      officeHoursReject s2 e2 = officeHoursReject s e) ∧
    officeHoursReject (9 * 3600) (18 * 3600 + 45 * 60) = false := by
  have e1 : ¬ b.start_time ≥ b.end_time := by omega
  refine ⟨⟨?_, ?_⟩, ?_, by decide⟩
  · intro hres
    by_contra hno
    have h3 : officeHoursReject b.start_time b.end_time = false := by
      simp only [officeHoursReject, Bool.or_eq_false_iff, decide_eq_false_iff_not]
      omega
    cases hf : coll.find? (overlapsWith b.start_time b.end_time) with
    | some ex => simp [create_booking, e1, h2, h3, hf] at hres
    | none =>
      obtain ⟨r, hr⟩ := create_booking_no_overlap b now newId coll e1 h2 h3 hf
      rw [hr] at hres
      simp at hres
  · intro hcond
    have h3 : officeHoursReject b.start_time b.end_time = true := by
      simp only [officeHoursReject, Bool.or_eq_true, decide_eq_true_eq]
      omega
    simp [create_booking, e1, h2, h3]
  · intro s e s2 e2 hs he
    simp [officeHoursReject, hs, he]

/-- Claim C4, witness: a booking from 08:00 to 10:00 is rejected by the
office-hours check. -/
theorem C4_witness :
    (create_booking ⟨"Alice", "a@x.com", 8 * 3600, 10 * 3600, "early"⟩ 0
      "eeeeeeeeeeeeeeeeeeeeeeee" []).1 =
      .err 400 (.structured "Cannot create a booking outside office hours.") :=
  ((C4_office_hours ⟨"Alice", "a@x.com", 8 * 3600, 10 * 3600, "early"⟩ 0
    "eeeeeeeeeeeeeeeeeeeeeeee" [] (by decide) (by decide)).1).mpr
    (Or.inl (by decide))

/-- Claim C5: the booking checks run in source order and short-circuit,
each failure answered with the structured body: a start not strictly
before the end always wins with its 400, then a start in the past, then
the office-hours violation, and only then the 409 overlap answer naming
the first overlapping booking. -/
theorem C5_check_order (b : BookingCreate) (now : Nat) (newId : String)
    (coll : List BookingInDB) :
    (b.end_time ≤ b.start_time →
      create_booking b now newId coll =
        (.err 400 (.structured "Start time must be before end time."), coll)) ∧
    (b.start_time < b.end_time → b.start_time < now →
      create_booking b now newId coll =
        (.err 400 (.structured "Cannot create a booking in the past."), coll)) ∧
    (b.start_time < b.end_time → ¬ b.start_time < now →
      officeHoursReject b.start_time b.end_time = true →
      create_booking b now newId coll =
        (.err 400 (.structured "Cannot create a booking outside office hours."), coll)) ∧
    (b.start_time < b.end_time → ¬ b.start_time < now →
      officeHoursReject b.start_time b.end_time = false →
      ∀ ex, coll.find? (overlapsWith b.start_time b.end_time) = some ex →
        create_booking b now newId coll =
          (.err 409 (.structured
            ("Time slot unavailable. Overlaps with booking ID: " ++ ex.id)), coll)) := by
  refine ⟨?_, ?_, ?_, ?_⟩
  · intro h
    have e1 : b.start_time ≥ b.end_time := h
    simp [create_booking, e1]
  · intro h1 hpast
    have e1 : ¬ b.start_time ≥ b.end_time := by omega
    simp [create_booking, e1, hpast]
  · intro h1 h2 h3
    have e1 : ¬ b.start_time ≥ b.end_time := by omega
    simp [create_booking, e1, h2, h3]
  · intro h1 h2 h3 ex hf
    have e1 : ¬ b.start_time ≥ b.end_time := by omega
    simp [create_booking, e1, h2, h3, hf]

/-- Claim C5, witness: a booking whose start is not before its end is
rejected by the first check with the structured body. -/
theorem C5_witness :
    create_booking ⟨"Alice", "a@x.com", 7200, 3600, "sync"⟩ 0
      "dddddddddddddddddddddddd" [] =
      (.err 400 (.structured "Start time must be before end time."), []) :=
  (C5_check_order ⟨"Alice", "a@x.com", 7200, 3600, "sync"⟩ 0
    "dddddddddddddddddddddddd" []).1 (by decide)

/-- Claim C6: whenever `POST /feedback` or `POST /booking` answers with
any error outcome, the corresponding collection is left exactly as it
was; an insertion happens only after every check on the request has
passed. -/
theorem C6_no_insert_on_failure :
    (∀ (fin : FeedbackCreate) (now : Nat) (newId : String)
        (coll : List FeedbackInDB) (st : Nat) (body : ErrorBody),
      (create_feedback fin now newId coll).1 = .err st body →
      (create_feedback fin now newId coll).2 = coll) ∧
    (∀ (b : BookingCreate) (now : Nat) (newId : String)
        (coll : List BookingInDB) (st : Nat) (body : ErrorBody),
      (create_booking b now newId coll).1 = .err st body →
      (create_booking b now newId coll).2 = coll) := by
  constructor
  · intro fin now newId coll st body h
    by_cases hlen : (pyStrip fin.feedback).length < 10
    · simp [create_feedback, hlen]
    · obtain ⟨r, hr⟩ := create_feedback_valid fin now newId coll hlen
      rw [hr] at h
      simp at h
  · intro b now newId coll st body h
    by_cases e1 : b.start_time ≥ b.end_time
    · simp [create_booking, e1]
    · by_cases h2 : b.start_time < now
      · simp [create_booking, e1, h2]
      · cases h3 : officeHoursReject b.start_time b.end_time with
        | true => simp [create_booking, e1, h2, h3]
        | false =>
          cases hf : coll.find? (overlapsWith b.start_time b.end_time) with
          | some ex => simp [create_booking, e1, h2, h3, hf]
          | none =>
            obtain ⟨r, hr⟩ := create_booking_no_overlap b now newId coll e1 h2 h3 hf
            rw [hr] at h
            simp at h

/-- Claim C6, witness: a too-short feedback text leaves the feedback
collection empty. -/
theorem C6_witness :
    (create_feedback ⟨"Alice", "a@x.com", "short"⟩ 0
      "0123456789abcdef01234568" []).2 = [] :=
  C6_no_insert_on_failure.1 ⟨"Alice", "a@x.com", "short"⟩ 0
    "0123456789abcdef01234568" [] 400 (.detail "Feedback too short.") (by decide)

/-- Claim C8: when a creation succeeds, fetching the returned identifier
against the post-request collection returns the very record the creation
call returned, for feedback and for bookings alike.  `newId` is the
database-assigned ObjectId, hence well formed and fresh for the
collection. -/
theorem C8_round_trip (now : Nat) (newId : String)
    (hvalid : isValidObjectId newId = true) :
    (∀ (fin : FeedbackCreate) (coll : List FeedbackInDB),
      (∀ d ∈ coll, oidEq d.id newId = false) →
      ∀ (r : FeedbackInDB) (coll2 : List FeedbackInDB),
        create_feedback fin now newId coll = (.ok r, coll2) →
        get_feedback r.id coll2 = .ok r) ∧
    (∀ (b : BookingCreate) (coll : List BookingInDB),
      (∀ d ∈ coll, oidEq d.id newId = false) →
      ∀ (r : BookingInDB) (coll2 : List BookingInDB),
        create_booking b now newId coll = (.ok r, coll2) →
        get_booking r.id coll2 = .ok r) := by
  constructor
  · intro fin coll hfresh r coll2 hc
    by_cases hlen : (pyStrip fin.feedback).length < 10
    · simp [create_feedback, hlen] at hc
    · have hfind : (coll ++
          [(⟨newId, fin.name, fin.email, fin.feedback, now⟩ : FeedbackInDB)]).find?
            (fun d => oidEq d.id newId) =
          some ⟨newId, fin.name, fin.email, fin.feedback, now⟩ :=
        find?_append_singleton_eq _ coll _ (fun y hy => hfresh y hy) (oidEq_refl newId)
      rw [show create_feedback fin now newId coll =
          (.ok ⟨newId, fin.name, fin.email, fin.feedback, now⟩,
            coll ++ [⟨newId, fin.name, fin.email, fin.feedback, now⟩]) from by
        simp [create_feedback, hlen, findFeedback, hfind]] at hc
      rw [Prod.mk.injEq] at hc
      obtain ⟨hok, hcoll⟩ := hc
      injection hok with hr
      subst hr
      subst hcoll
      simp [get_feedback, hvalid, findFeedback, hfind]
  · intro b coll hfresh r coll2 hc
    by_cases e1 : b.start_time ≥ b.end_time
    · simp [create_booking, e1] at hc
    · by_cases h2 : b.start_time < now
      · simp [create_booking, e1, h2] at hc
      · cases h3 : officeHoursReject b.start_time b.end_time with
        | true => simp [create_booking, e1, h2, h3] at hc
        | false =>
          cases hf : coll.find? (overlapsWith b.start_time b.end_time) with
          | some ex => simp [create_booking, e1, h2, h3, hf] at hc
          | none =>
            have hfind : (coll ++
                [(⟨newId, b.name, b.email, b.start_time, b.end_time, b.topic⟩ :
                  BookingInDB)]).find? (fun d => oidEq d.id newId) =
                some ⟨newId, b.name, b.email, b.start_time, b.end_time, b.topic⟩ :=
              find?_append_singleton_eq _ coll _ (fun y hy => hfresh y hy)
                (oidEq_refl newId)
            rw [show create_booking b now newId coll =
                (.ok ⟨newId, b.name, b.email, b.start_time, b.end_time, b.topic⟩,
                  coll ++ [⟨newId, b.name, b.email, b.start_time, b.end_time, b.topic⟩])
                from by
              simp [create_booking, e1, h2, h3, hf, findBooking, hfind]] at hc
            rw [Prod.mk.injEq] at hc
            obtain ⟨hok, hcoll⟩ := hc
            injection hok with hr
            subst hr
            subst hcoll
            simp [get_booking, hvalid, findBooking, hfind]

/-- Claim C8, witness: a concrete feedback creation followed by a fetch
of the returned identifier yields the identical record. -/
theorem C8_witness :
    get_feedback "0123456789abcdef01234567"
      [⟨"0123456789abcdef01234567", "Alice", "a@x.com", "plenty long feedback", 5⟩] =
      .ok ⟨"0123456789abcdef01234567", "Alice", "a@x.com", "plenty long feedback", 5⟩ :=
  (C8_round_trip 5 "0123456789abcdef01234567" (by decide)).1
    ⟨"Alice", "a@x.com", "plenty long feedback"⟩ [] (by decide)
    ⟨"0123456789abcdef01234567", "Alice", "a@x.com", "plenty long feedback", 5⟩
    [⟨"0123456789abcdef01234567", "Alice", "a@x.com", "plenty long feedback", 5⟩]
    (by decide)

/-- Claim C9: a client-supplied `time` key in the `POST /feedback` body
is dropped by parsing and cannot reach the model; every record the
handler inserts carries the server instant `now` as its `time`, and the
record returned on success has `time` equal to `now`. -/
theorem C9_server_timestamp (body : List (String × String)) (t : String)
    (fin : FeedbackCreate) (now : Nat) (newId : String)
    (coll : List FeedbackInDB) :
    parseFeedbackCreate (("time", t) :: body) = parseFeedbackCreate body ∧
    ((create_feedback fin now newId coll).2 = coll ∨
      (create_feedback fin now newId coll).2 =
        coll ++ [⟨newId, fin.name, fin.email, fin.feedback, now⟩]) ∧
    ((∀ d ∈ coll, oidEq d.id newId = false) →
      ∀ r, (create_feedback fin now newId coll).1 = .ok r → r.time = now) := by
  refine ⟨?_, ?_, ?_⟩
  · simp [parseFeedbackCreate, List.lookup]
  · by_cases hlen : (pyStrip fin.feedback).length < 10
    · exact Or.inl (by simp [create_feedback, hlen])
    · obtain ⟨r, hr⟩ := create_feedback_valid fin now newId coll hlen
      exact Or.inr (by rw [hr])
  · intro hfresh r hok
    by_cases hlen : (pyStrip fin.feedback).length < 10
    · simp [create_feedback, hlen] at hok
    · have hfind : (coll ++
          [(⟨newId, fin.name, fin.email, fin.feedback, now⟩ : FeedbackInDB)]).find?
            (fun d => oidEq d.id newId) =
          some ⟨newId, fin.name, fin.email, fin.feedback, now⟩ :=
        find?_append_singleton_eq _ coll _ (fun y hy => hfresh y hy) (oidEq_refl newId)
      rw [show (create_feedback fin now newId coll).1 =
          .ok ⟨newId, fin.name, fin.email, fin.feedback, now⟩ from by
        simp [create_feedback, hlen, findFeedback, hfind]] at hok
      injection hok with hr
      rw [← hr]

/-- Claim C9, witness: a body carrying a client `time` parses the same
as the body without it, and a concrete successful creation at server
instant 42 returns a record whose `time` is 42. -/
theorem C9_witness :
    parseFeedbackCreate [("time", "1999-01-01T00:00:00Z"), ("name", "Alice"),
      ("email", "a@x.com"), ("feedback", "plenty long feedback")] =
      parseFeedbackCreate [("name", "Alice"), ("email", "a@x.com"),
        ("feedback", "plenty long feedback")] ∧
    (⟨"0123456789abcdef01234569", "Alice", "a@x.com", "plenty long feedback", 42⟩ :
      FeedbackInDB).time = 42 :=
  ⟨(C9_server_timestamp [("name", "Alice"), ("email", "a@x.com"),
      ("feedback", "plenty long feedback")] "1999-01-01T00:00:00Z"
      ⟨"Alice", "a@x.com", "plenty long feedback"⟩ 42
      "0123456789abcdef01234569" []).1,
   (C9_server_timestamp [("name", "Alice"), ("email", "a@x.com"),
      ("feedback", "plenty long feedback")] "1999-01-01T00:00:00Z"
      ⟨"Alice", "a@x.com", "plenty long feedback"⟩ 42
      "0123456789abcdef01234569" []).2.2 (by decide)
      ⟨"0123456789abcdef01234569", "Alice", "a@x.com", "plenty long feedback", 42⟩
      (by decide)⟩

end Awanbot
